import Mathlib

/-!
Verification of the DailyBook frontend API client (`lib/api.ts`).

The module under verification is a thin fetch wrapper: it persists an
authentication token in `localStorage`, builds request headers (always
`Content-Type: application/json`, plus `Authorization: Bearer <token>`
when a truthy token is available), serializes a JSON body when given,
and normalizes every HTTP outcome into `{ data }` or `{ error }`.

The embedding below models the browser environment (window presence,
localStorage contents, current time) explicitly and translates each
function of `lib/api.ts` into a pure Lean function over that state.
-/

namespace DailyBook

/-- One slot of `localStorage`: an association list from keys to values,
keys kept unique by construction of `setItem`. -/
abbrev Storage := List (String × String)

/-- Model of `localStorage.setItem`: overwrite the entry for `k` if present,
otherwise append it. -/
def setItem (k v : String) : Storage → Storage
  | [] => [(k, v)]
  | (kh, vh) :: rest => if kh = k then (k, v) :: rest else (kh, vh) :: setItem k v rest

/-- Model of `localStorage.getItem`: first value stored under `k`, or `null`. -/
def getItem (k : String) : Storage → Option String
  | [] => none
  | (kh, vh) :: rest => if kh = k then some vh else getItem k rest

/-- Model of `localStorage.removeItem`: drop every entry stored under `k`. -/
def removeItem (k : String) : Storage → Storage
  | [] => []
  | (kh, vh) :: rest => if kh = k then removeItem k rest else (kh, vh) :: removeItem k rest

/-- The browser environment seen by `lib/api.ts`: whether `window` is defined,
the contents of `localStorage`, and the current clock (which, as the spec
notes, no reviewed function ever reads). -/
structure BrowserEnv where
  hasWindow : Bool
  storage : Storage
  now : Int

/-- `getStoredToken` from `lib/api.ts`: `null` outside a browser, otherwise
`localStorage.getItem("auth_token")`. -/
def getStoredToken (env : BrowserEnv) : Option String :=
  if env.hasWindow then getItem "auth_token" env.storage else none

/-- `setStoredToken` from `lib/api.ts`: no-op outside a browser, otherwise
store the token under `"auth_token"` and the stringified expiry under
`"auth_expires"`. -/
def setStoredToken (token : String) (expiresAt : Int) (env : BrowserEnv) : BrowserEnv :=
  if env.hasWindow then
    let st := setItem "auth_expires" (toString expiresAt) (setItem "auth_token" token env.storage)
    { env with storage := st }
  else env

/-- `clearStoredToken` from `lib/api.ts`: no-op outside a browser, otherwise
remove both storage keys. -/
def clearStoredToken (env : BrowserEnv) : BrowserEnv :=
  if env.hasWindow then
    let st := removeItem "auth_expires" (removeItem "auth_token" env.storage)
    { env with storage := st }
  else env

/-- `getHeaders` from `lib/api.ts`. The JS source is

  - `const authToken = token || getStoredToken()` — `||` falls through on a
    falsy (empty or undefined) explicit token;
  - `if (authToken) headers["Authorization"] = "Bearer " + authToken` — a
    falsy resolved token attaches no header.

An explicit `token` argument of `none` models an omitted parameter. -/
def getHeaders (token : Option String) (env : BrowserEnv) : List (String × String) :=
  let headers : List (String × String) := [("Content-Type", "application/json")]
  let authToken : Option String :=
    match token with
    | some t => if t = "" then getStoredToken env else some t
    | none => getStoredToken env
  match authToken with
  | some a => if a = "" then headers else setItem "Authorization" ("Bearer " ++ a) headers
  | none => headers

/-- Characters-level prefix test, used to model `String.prototype.includes`. -/
def charsPre : List Char → List Char → Bool
  | [], _ => true
  | _ :: _, [] => false
  | a :: as, b :: bs => a = b && charsPre as bs

/-- Characters-level substring test. -/
def charsSub (needle : List Char) : List Char → Bool
  | [] => charsPre needle []
  | c :: cs => charsPre needle (c :: cs) || charsSub needle cs

/-- Model of the platform `s.includes(sub)`: `sub` occurs contiguously in `s`. -/
def strIncludes (s sub : String) : Bool :=
  charsSub sub.toList s.toList

/-- JSON values, the payloads callers of `apiCall` pass as request bodies and
receive back from `response.json()`. -/
inductive Json where
  | null
  | bool (b : Bool)
  | num (n : Int)
  | str (s : String)
  | arr (elems : List Json)
  | obj (fields : List (String × Json))

/-- String escaping of the platform `JSON.stringify` (the cases relevant to
the bodies this client sends: quote, backslash and common control characters). -/
def escapeChar (c : Char) : String :=
  if c = '"' then "\\\""
  else if c = '\\' then "\\\\"
  else if c = '\n' then "\\n"
  else if c = '\t' then "\\t"
  else if c = '\r' then "\\r"
  else String.singleton c

/-- Escape every character of a string for JSON output. -/
def escapeStr (s : String) : String :=
  String.join (s.toList.map escapeChar)

/-- A JSON string literal: escaped content between double quotes. -/
def jsonQuote (s : String) : String :=
  "\"" ++ escapeStr s ++ "\""

mutual

/-- Model of the platform `JSON.stringify` on the values of `Json`. -/
def Json.stringify : Json → String
  | .null => "null"
  | .bool true => "true"
  | .bool false => "false"
  | .num n => toString n
  | .str s => jsonQuote s
  | .arr xs => "[" ++ Json.stringifyList xs ++ "]"
  | .obj fs => "\x7b" ++ Json.stringifyFields fs ++ "\x7d"

/-- Comma-separated serialization of a JSON array's elements. -/
def Json.stringifyList : List Json → String
  | [] => ""
  | [x] => Json.stringify x
  | x :: y :: rest => Json.stringify x ++ "," ++ Json.stringifyList (y :: rest)

/-- Comma-separated serialization of a JSON object's fields. -/
def Json.stringifyFields : List (String × Json) → String
  | [] => ""
  | [(k, v)] => jsonQuote k ++ ":" ++ Json.stringify v
  | (k, v) :: p :: rest =>
      jsonQuote k ++ ":" ++ Json.stringify v ++ "," ++ Json.stringifyFields (p :: rest)

end

/-- The HTTP methods of `apiCall`'s union type `"GET" | "POST" | "PUT" | "DELETE"`. -/
inductive HttpMethod where
  | GET
  | POST
  | PUT
  | DELETE
deriving Repr, DecidableEq

/-- The outgoing request assembled by `apiCall`: the fetch URL and the
`RequestInit` options (method, headers, optional serialized body). -/
structure JsRequest where
  url : String
  method : HttpMethod
  headers : List (String × String)
  body : Option String

/-- A value thrown by the JS runtime during fetch or body parsing: either an
`Error` carrying a message, or any non-`Error` value. -/
inductive JsThrown where
  | jsError (message : String)
  | nonError

/-- The message `apiCall`'s catch clause extracts:
`err instanceof Error ? err.message : "Unknown error"`. -/
def jsMessage : JsThrown → String
  | .jsError m => m
  | .nonError => "Unknown error"

/-- Model of the platform `Response` as `apiCall` observes it: the `ok` flag,
numeric status, the `content-type` header (absent modeled as `none`), the
body text yielded by `response.text()`, and the outcome of `response.json()`
(`Except.error` when parsing the body throws). -/
structure HttpResponse where
  ok : Bool
  status : Nat
  contentType : Option String
  bodyText : String
  jsonBody : Except JsThrown Json

/-- Outcome of one `fetch` call: a settled response, or a thrown exception
(network failure; a later thrown parse failure is folded in via `jsonBody`). -/
inductive FetchOutcome where
  | success (resp : HttpResponse)
  | thrown (e : JsThrown)

/-- `API_BASE` from `lib/api.ts` with `NEXT_PUBLIC_API_BASE` unset: the
`||` fallback to the local address. -/
def API_BASE : String := "http://localhost:8080"

/-- The request `apiCall` hands to `fetch`: URL `API_BASE + endpoint`, the
given method, headers from `getHeaders`, and — only when a body is given —
`JSON.stringify(body)` as payload (`if (body) options.body = ...`). -/
def requestOf (endpoint : String) (method : HttpMethod) (body : Option Json)
    (token : Option String) (env : BrowserEnv) : JsRequest :=
  { url := API_BASE ++ endpoint
    method := method
    headers := getHeaders token env
    body := body.map Json.stringify }

/-- The discriminated result of `apiCall`: the `{ data }` field filled from the
JSON branch or from the raw-text branch (`text as unknown as T`), or the
`{ error }` field. -/
inductive ApiResult where
  | dataJson (v : Json)
  | dataText (s : String)
  | error (msg : String)

/-- Response normalization of `apiCall` (the code after `await fetch`):

  - thrown exception → `{ error: message-or-"Unknown error" }`;
  - `!response.ok` → `{ error: text || "API error: " + status }`;
  - ok and `contentType?.includes("application/json")` → `{ data: await
    response.json() }`, a thrown parse failure landing in the catch clause;
  - otherwise → `{ data: await response.text() }`. -/
def handleResponse (outcome : FetchOutcome) : ApiResult :=
  match outcome with
  | .thrown e => .error (jsMessage e)
  | .success resp =>
    if resp.ok = false then
      .error (if resp.bodyText = "" then "API error: " ++ toString resp.status else resp.bodyText)
    else
      let ctJson : Bool :=
        match resp.contentType with
        | some ct => strIncludes ct "application/json"
        | none => false
      if ctJson then
        match resp.jsonBody with
        | .ok v => .dataJson v
        | .error e => .error (jsMessage e)
      else
        .dataText resp.bodyText

/-- `apiCall` from `lib/api.ts`: build the request, hand it to the ambient
`fetch` (passed in as `doFetch`, the one environment interaction), and
normalize the outcome. -/
def apiCall (endpoint : String) (method : HttpMethod) (body : Option Json)
    (token : Option String) (env : BrowserEnv) (doFetch : JsRequest → FetchOutcome) : ApiResult :=
  handleResponse (doFetch (requestOf endpoint method body token env))

/-- `sendFollowRequest` from `lib/api.ts`:
`apiCall("/api/follow/" + username, "POST", {})`. -/
def sendFollowRequest (username : String) (env : BrowserEnv)
    (doFetch : JsRequest → FetchOutcome) : ApiResult :=
  apiCall ("/api/follow/" ++ username) .POST (some (Json.obj [])) none env doFetch

/-- `unfollow` from `lib/api.ts`: `apiCall("/api/follow/" + username, "DELETE")`
— note: no body argument is passed. -/
def unfollow (username : String) (env : BrowserEnv)
    (doFetch : JsRequest → FetchOutcome) : ApiResult :=
  apiCall ("/api/follow/" ++ username) .DELETE none none env doFetch

/-- The request `unfollow` issues, by unfolding `unfollow` into `apiCall`. -/
def unfollowRequest (username : String) (env : BrowserEnv) : JsRequest :=
  requestOf ("/api/follow/" ++ username) .DELETE none none env

/-- Written from the spec's words, for comparison with `getHeaders`: the token
"available" to a request is the explicit override when it is a (truthy,
i.e. non-empty) token, otherwise the stored token when that is truthy,
otherwise nothing — the spec's "explicit override or Session Store", with
an empty string counting as no token ("never sent empty"). -/
def availableToken (override : Option String) (env : BrowserEnv) : Option String :=
  let truthy : Option String → Option String := fun o =>
    match o with
    | some s => if s = "" then none else some s
    | none => none
  match override with
  | some t => if t = "" then truthy (getStoredToken env) else some t
  | none => truthy (getStoredToken env)

/-- Looking up the key just written by `setItem` yields the written value. -/
theorem getItem_setItem_same (k v : String) (s : Storage) :
    getItem k (setItem k v s) = some v := by
  induction s with
  | nil => simp [setItem, getItem]
  | cons hd tl ih =>
    obtain ⟨kh, vh⟩ := hd
    by_cases h : kh = k <;> simp [setItem, getItem, h, ih]

/-- Writing one key with `setItem` leaves lookups of any other key unchanged. -/
theorem getItem_setItem_ne (k k₂ v : String) (s : Storage) (h : k ≠ k₂) :
    getItem k (setItem k₂ v s) = getItem k s := by
  have h2 : k₂ ≠ k := Ne.symm h
  induction s with
  | nil => simp [setItem, getItem, h2]
  | cons hd tl ih =>
    obtain ⟨kh, vh⟩ := hd
    by_cases hk : kh = k₂
    · subst hk
      simp [setItem, getItem, h2]
    · by_cases hk2 : kh = k <;> simp [setItem, getItem, hk, hk2, h, ih]

/-- Looking up a key just removed by `removeItem` yields nothing. -/
theorem getItem_removeItem_same (k : String) (s : Storage) :
    getItem k (removeItem k s) = none := by
  induction s with
  | nil => simp [removeItem, getItem]
  | cons hd tl ih =>
    obtain ⟨kh, vh⟩ := hd
    by_cases h : kh = k <;> simp [removeItem, getItem, h, ih]

/-- Removing one key leaves lookups of any other key unchanged. -/
theorem getItem_removeItem_ne (k k₂ : String) (s : Storage) (h : k ≠ k₂) :
    getItem k (removeItem k₂ s) = getItem k s := by
  have h2 : k₂ ≠ k := Ne.symm h
  induction s with
  | nil => simp [removeItem, getItem]
  | cons hd tl ih =>
    obtain ⟨kh, vh⟩ := hd
    by_cases hk : kh = k₂
    · subst hk
      simp [removeItem, getItem, h2, ih]
    · by_cases hk2 : kh = k <;> simp [removeItem, getItem, hk, hk2, h, ih]

/-- The `Authorization` header produced by `getHeaders` is exactly
`Bearer <t>` for the available token `t`, and absent when none is available. -/
theorem getHeaders_auth (tok : Option String) (env : BrowserEnv) :
    getItem "Authorization" (getHeaders tok env) =
      Option.map (fun t => "Bearer " ++ t) (availableToken tok env) := by
  cases tok with
  | none =>
    cases h : getStoredToken env with
    | none => simp [getHeaders, availableToken, h, getItem]
    | some s =>
      by_cases hs : s = "" <;>
        simp [getHeaders, availableToken, h, hs, getItem, setItem]
  | some t =>
    by_cases ht : t = ""
    · cases h : getStoredToken env with
      | none => simp [getHeaders, availableToken, h, ht, getItem]
      | some s =>
        by_cases hs : s = "" <;>
          simp [getHeaders, availableToken, h, ht, hs, getItem, setItem]
    · simp [getHeaders, availableToken, ht, getItem, setItem]

/-- The `Content-Type` header produced by `getHeaders` is always
`application/json`. -/
theorem getHeaders_contentType (tok : Option String) (env : BrowserEnv) :
    getItem "Content-Type" (getHeaders tok env) = some "application/json" := by
  cases tok with
  | none =>
    cases h : getStoredToken env with
    | none => simp [getHeaders, h, getItem]
    | some s =>
      by_cases hs : s = "" <;> simp [getHeaders, h, hs, getItem, setItem]
  | some t =>
    by_cases ht : t = ""
    · cases h : getStoredToken env with
      | none => simp [getHeaders, h, ht, getItem]
      | some s =>
        by_cases hs : s = "" <;> simp [getHeaders, h, ht, hs, getItem, setItem]
    · simp [getHeaders, ht, getItem, setItem]

/-- A browser environment holding the token `"stored"` in its Session Store. -/
def envA : BrowserEnv := { hasWindow := true, storage := [("auth_token", "stored")], now := 0 }

/-- A browser environment with an empty Session Store. -/
def envB : BrowserEnv := { hasWindow := true, storage := [], now := 0 }

/-- A non-2xx response whose body text is `"Not found"`. -/
def respNotFound : HttpResponse :=
  { ok := false, status := 404, contentType := none, bodyText := "Not found",
    jsonBody := .error .nonError }

/-- A non-2xx response with status 500 and an empty body. -/
def resp500 : HttpResponse :=
  { ok := false, status := 500, contentType := none, bodyText := "",
    jsonBody := .error .nonError }

/-- A 200 JSON response whose body parses to the object of the spec's example. -/
def respJson : HttpResponse :=
  { ok := true, status := 200, contentType := some "application/json",
    bodyText := "\x7b\"id\":\"1\",\"title\":\"x\"\x7d",
    jsonBody := .ok (Json.obj [("id", .str "1"), ("title", .str "x")]) }

/-- A 200 response with a non-JSON content type. -/
def respText : HttpResponse :=
  { ok := true, status := 200, contentType := some "text/plain",
    bodyText := "hello", jsonBody := .error .nonError }

/-- A 200 response carrying no `Content-Type` header at all. -/
def respNoCT : HttpResponse :=
  { ok := true, status := 200, contentType := none,
    bodyText := "plain", jsonBody := .error .nonError }

/-- C1: whenever a token is available (explicit override, else Session Store,
empty strings counting as no token), the headers built by `getHeaders` carry
`Authorization: Bearer <that token>`; when none is available, the headers
carry no `Authorization` entry at all. -/
theorem c1_authorization_header (tok : Option String) (env : BrowserEnv) :
    (∀ t, availableToken tok env = some t →
      getItem "Authorization" (getHeaders tok env) = some ("Bearer " ++ t)) ∧
    (availableToken tok env = none →
      getItem "Authorization" (getHeaders tok env) = none) := by
  constructor
  · intro t ht
    simp [getHeaders_auth, ht]
  · intro h
    simp [getHeaders_auth, h]

/-- C1 witness: with `"stored"` in the Session Store and no override the header
is `Bearer stored`; with an empty store and no override there is no header. -/
theorem c1_authorization_header_witness :
    (availableToken none envA = some "stored" ∧
      getItem "Authorization" (getHeaders none envA) = some ("Bearer " ++ "stored")) ∧
    (availableToken none envB = none ∧
      getItem "Authorization" (getHeaders none envB) = none) :=
  ⟨⟨rfl, (c1_authorization_header none envA).1 "stored" rfl⟩,
   ⟨rfl, (c1_authorization_header none envB).2 rfl⟩⟩

/-- C2: a non-success response yields `{ error: body text }` when the body is
non-empty, and `{ error: "API error: <status>" }` when the body is empty. -/
theorem c2_error_branch (ep : String) (meth : HttpMethod) (b : Option Json)
    (tok : Option String) (env : BrowserEnv) (resp : HttpResponse)
    (hok : resp.ok = false) :
    (resp.bodyText ≠ "" →
      apiCall ep meth b tok env (fun _ => .success resp) = .error resp.bodyText) ∧
    (resp.bodyText = "" →
      apiCall ep meth b tok env (fun _ => .success resp) =
        .error ("API error: " ++ toString resp.status)) := by
  constructor <;> intro h <;> simp [apiCall, handleResponse, hok, h]

/-- C2 witness: body `"Not found"` yields `{ error: "Not found" }`; an empty
body with status 500 yields `{ error: "API error: 500" }`. -/
theorem c2_error_branch_witness :
    (respNotFound.ok = false ∧ respNotFound.bodyText ≠ "" ∧
      apiCall "/api/entries" .GET none none envB (fun _ => .success respNotFound) =
        .error "Not found") ∧
    (resp500.ok = false ∧ resp500.bodyText = "" ∧
      apiCall "/api/entries" .GET none none envB (fun _ => .success resp500) =
        .error "API error: 500") :=
  ⟨⟨rfl, by decide,
    (c2_error_branch "/api/entries" .GET none none envB respNotFound rfl).1 (by decide)⟩,
   ⟨rfl, rfl,
    (c2_error_branch "/api/entries" .GET none none envB resp500 rfl).2 rfl⟩⟩

/-- C3: a success response with a content type containing `application/json`
yields `{ data: <parsed JSON body> }`; with any other content type it yields
`{ data: <raw body text> }`. -/
theorem c3_success_content_type (ep : String) (meth : HttpMethod) (b : Option Json)
    (tok : Option String) (env : BrowserEnv) (resp : HttpResponse)
    (hok : resp.ok = true) :
    (∀ ct v, resp.contentType = some ct → strIncludes ct "application/json" = true →
      resp.jsonBody = .ok v →
      apiCall ep meth b tok env (fun _ => .success resp) = .dataJson v) ∧
    (∀ ct, resp.contentType = some ct → strIncludes ct "application/json" = false →
      apiCall ep meth b tok env (fun _ => .success resp) = .dataText resp.bodyText) := by
  constructor
  · intro ct v hct hinc hj
    simp [apiCall, handleResponse, hok, hct, hinc, hj]
  · intro ct hct hinc
    simp [apiCall, handleResponse, hok, hct, hinc]

/-- C3 witness: the spec's 200 `application/json` example parses to the object
`(id: "1", title: "x")`, and a `text/plain` 200 returns the raw text. -/
theorem c3_success_content_type_witness :
    (respJson.ok = true ∧ respJson.contentType = some "application/json" ∧
      strIncludes "application/json" "application/json" = true ∧
      respJson.jsonBody = .ok (Json.obj [("id", .str "1"), ("title", .str "x")]) ∧
      apiCall "/api/entries/1" .GET none none envB (fun _ => .success respJson) =
        .dataJson (Json.obj [("id", .str "1"), ("title", .str "x")])) ∧
    (respText.ok = true ∧ respText.contentType = some "text/plain" ∧
      strIncludes "text/plain" "application/json" = false ∧
      apiCall "/api/entries/1" .GET none none envB (fun _ => .success respText) =
        .dataText "hello") :=
  ⟨⟨rfl, rfl, by decide, rfl,
    (c3_success_content_type "/api/entries/1" .GET none none envB respJson rfl).1
      "application/json" (Json.obj [("id", .str "1"), ("title", .str "x")])
      rfl (by decide) rfl⟩,
   ⟨rfl, rfl, by decide,
    (c3_success_content_type "/api/entries/1" .GET none none envB respText rfl).2
      "text/plain" rfl (by decide)⟩⟩

/-- C4: a thrown exception is never propagated: `apiCall` returns
`{ error: <message> }` for a thrown `Error` and `{ error: "Unknown error" }`
for a thrown non-`Error` value. -/
theorem c4_thrown_exception (ep : String) (meth : HttpMethod) (b : Option Json)
    (tok : Option String) (env : BrowserEnv) (m : String) :
    apiCall ep meth b tok env (fun _ => .thrown (.jsError m)) = .error m ∧
    apiCall ep meth b tok env (fun _ => .thrown .nonError) = .error "Unknown error" :=
  ⟨rfl, rfl⟩

/-- C5: every request with a body carries `Content-Type: application/json` and
a payload equal to the JSON serialization of the body. -/
theorem c5_body_serialization (ep : String) (meth : HttpMethod) (bodyObj : Json)
    (tok : Option String) (env : BrowserEnv) :
    getItem "Content-Type" (requestOf ep meth (some bodyObj) tok env).headers =
      some "application/json" ∧
    (requestOf ep meth (some bodyObj) tok env).body = some (Json.stringify bodyObj) :=
  ⟨getHeaders_contentType tok env, rfl⟩

/-- C6: Session Store round-trip with storage available: `setStoredToken t e`
then `getStoredToken` returns `t`; after `clearStoredToken`, it returns none. -/
theorem c6_round_trip (t : String) (e : Int) (env : BrowserEnv)
    (h : env.hasWindow = true) :
    getStoredToken (setStoredToken t e env) = some t ∧
    getStoredToken (clearStoredToken (setStoredToken t e env)) = none := by
  have hne : ("auth_token" : String) ≠ "auth_expires" := by decide
  constructor
  · simp [getStoredToken, setStoredToken, h]
    rw [getItem_setItem_ne _ _ _ _ hne, getItem_setItem_same]
  · simp [getStoredToken, clearStoredToken, setStoredToken, h]
    rw [getItem_removeItem_ne _ _ _ hne, getItem_removeItem_same]

/-- C6 witness: the round-trip evaluated in a concrete browser environment. -/
theorem c6_round_trip_witness :
    envB.hasWindow = true ∧
    getStoredToken (setStoredToken "tok" 123 envB) = some "tok" ∧
    getStoredToken (clearStoredToken (setStoredToken "tok" 123 envB)) = none :=
  ⟨rfl, (c6_round_trip "tok" 123 envB rfl).1, (c6_round_trip "tok" 123 envB rfl).2⟩

/-- C7 counterexample: with `"stored"` in the Session Store and the explicit
token parameter supplied as `""`, the header is built from the stored token
(`Bearer stored`), not from the explicit parameter — so the explicit
parameter does not take precedence for every value. -/
theorem c7_counterexample :
    getItem "Authorization" (getHeaders (some "") envA) = some "Bearer stored" ∧
    getItem "Authorization" (getHeaders (some "") envA) ≠ some ("Bearer " ++ "") := by
  constructor
  · rfl
  · decide

/-- C7 amended: for every non-empty explicit token parameter, the
`Authorization` header is built from the explicit parameter regardless of the
Session Store; an empty explicit parameter is treated as absent (JS `||`)
and falls back to the stored token. -/
theorem c7_explicit_precedence (t : String) (env : BrowserEnv) (h : t ≠ "") :
    getItem "Authorization" (getHeaders (some t) env) = some ("Bearer " ++ t) := by
  have hh := getHeaders_auth (some t) env
  simp [availableToken, h] at hh
  exact hh

/-- C7 witness: the override `"over"` wins over the stored token `"stored"`. -/
theorem c7_explicit_precedence_witness :
    "over" ≠ "" ∧
    getItem "Authorization" (getHeaders (some "over") envA) = some ("Bearer " ++ "over") :=
  ⟨by decide, c7_explicit_precedence "over" envA (by decide)⟩

/-- C8 counterexample: the request `unfollow "alice"` issues has no body at
all, in particular not the serialized empty object `\x7b\x7d` the wire-contract
table promises. -/
theorem c8_counterexample :
    (unfollowRequest "alice" envA).body = none ∧
    (unfollowRequest "alice" envA).body ≠ some (Json.stringify (Json.obj [])) ∧
    Json.stringify (Json.obj []) = "\x7b\x7d" := by
  refine ⟨rfl, ?_, rfl⟩
  decide

/-- C8 amended: `unfollow` issues exactly one request — the one handed to
`fetch` — a DELETE to `API_BASE ++ "/api/follow/" ++ username` with no body. -/
theorem c8_unfollow_request (u : String) (env : BrowserEnv)
    (f : JsRequest → FetchOutcome) :
    unfollow u env f = handleResponse (f (unfollowRequest u env)) ∧
    (unfollowRequest u env).method = .DELETE ∧
    (unfollowRequest u env).url = API_BASE ++ ("/api/follow/" ++ u) ∧
    (unfollowRequest u env).body = none :=
  ⟨rfl, rfl, rfl, rfl⟩

/-- C9: expiry is never consulted — two runs that store the same token with
different expiry values and run at different clock times build identical
headers, and (in a browser, for a truthy token) both attach
`Authorization: Bearer <token>`. -/
theorem c9_expiry_ignored (env : BrowserEnv) (t : String) (e₁ e₂ n₁ n₂ : Int) :
    getHeaders none { setStoredToken t e₁ env with now := n₁ } =
      getHeaders none { setStoredToken t e₂ env with now := n₂ } ∧
    (env.hasWindow = true → t ≠ "" →
      getItem "Authorization" (getHeaders none (setStoredToken t e₁ env)) =
        some ("Bearer " ++ t)) := by
  have hne : ("auth_token" : String) ≠ "auth_expires" := by decide
  have key : ∀ (e n : Int), getStoredToken { setStoredToken t e env with now := n } =
      if env.hasWindow then some t else none := by
    intro e n
    cases hw : env.hasWindow with
    | true =>
      simp [getStoredToken, setStoredToken, hw]
      rw [getItem_setItem_ne _ _ _ _ hne, getItem_setItem_same]
    | false => simp [getStoredToken, setStoredToken, hw]
  constructor
  · have h12 : getStoredToken { setStoredToken t e₁ env with now := n₁ } =
        getStoredToken { setStoredToken t e₂ env with now := n₂ } := by
      rw [key, key]
    simp [getHeaders, h12]
  · intro hw ht
    rw [getHeaders_auth]
    have hst : getStoredToken (setStoredToken t e₁ env) = some t := by
      simp [getStoredToken, setStoredToken, hw]
      rw [getItem_setItem_ne _ _ _ _ hne, getItem_setItem_same]
    simp [availableToken, hst, ht]

/-- C9 witness: expiry values 1 vs 2 and clocks 5 vs 6 give identical headers,
both carrying `Bearer tok`. -/
theorem c9_expiry_ignored_witness :
    envB.hasWindow = true ∧ "tok" ≠ "" ∧
    getHeaders none { setStoredToken "tok" 1 envB with now := 5 } =
      getHeaders none { setStoredToken "tok" 2 envB with now := 6 } ∧
    getItem "Authorization" (getHeaders none (setStoredToken "tok" 1 envB)) =
      some ("Bearer " ++ "tok") :=
  ⟨rfl, by decide, (c9_expiry_ignored envB "tok" 1 2 5 6).1,
   (c9_expiry_ignored envB "tok" 1 2 5 6).2 rfl (by decide)⟩

/-- C10: a success response with no `Content-Type` header at all takes the
raw-text branch (`contentType?.includes` is falsy, nothing throws), so
`apiCall` returns `{ data: <body text> }`. -/
theorem c10_absent_content_type (ep : String) (meth : HttpMethod) (b : Option Json)
    (tok : Option String) (env : BrowserEnv) (resp : HttpResponse)
    (hok : resp.ok = true) (hct : resp.contentType = none) :
    apiCall ep meth b tok env (fun _ => .success resp) = .dataText resp.bodyText := by
  simp [apiCall, handleResponse, hok, hct]

/-- C10 witness: a concrete 200 response without a content type returns its
body text as data. -/
theorem c10_absent_content_type_witness :
    respNoCT.ok = true ∧ respNoCT.contentType = none ∧
    apiCall "/api/entries" .GET none none envB (fun _ => .success respNoCT) =
      .dataText "plain" :=
  ⟨rfl, rfl, c10_absent_content_type "/api/entries" .GET none none envB respNoCT rfl rfl⟩

end DailyBook
